import Mathlib

/-!
Verification of the unit-carrying array type in src/respy/units/quantity.py.

The numeric values of a Quantity are modelled as exact rationals, and the
stateful in-place update path is modelled by explicit state passing.  The
collaborating modules that are not part of the sources, namely the operator
resolver of respy.unit_base.operations, the unit resolver get_unit, the
sentinel singletons Zero and One, the external Units scale-factor table and
the cross-representation converter convert_to_unit, are modelled from the
specification and marked as such in their doc comments.
-/

namespace Respy

/-- Symbolic unit values as they flow through the code.  The Python code
distinguishes three shapes: the value None, the sympy Zero singleton used as
the no-unit sentinel at construction time, and genuine symbolic unit
expressions.  A symbolic expression is kept as a list of base-unit names with
integer exponents; the empty list stands for the sympy One that a cancelling
product reduces to. -/
inductive SUnit where
  | pnone : SUnit
  | zero : SUnit
  | sym : List (String × Int) → SUnit
  deriving DecidableEq, Repr

/-- Insert one base-unit factor into an exponent list, merging with an
existing factor of the same base and dropping factors whose exponent
cancels to zero.  This mirrors the automatic simplification the symbolic
engine performs on unit products. -/
def insertExp (b : String) (e : Int) : List (String × Int) → List (String × Int)
  | [] => if e = 0 then [] else [(b, e)]
  | (c, f) :: rest =>
      if b = c then (if e + f = 0 then rest else (c, e + f) :: rest)
      else (c, f) :: insertExp b e rest

/-- Product of two exponent lists. -/
def mulMap (m1 m2 : List (String × Int)) : List (String × Int) :=
  m2.foldl (fun acc p => insertExp p.1 p.2 acc) m1

/-- Inverse of an exponent list. -/
def invMap (m : List (String × Int)) : List (String × Int) :=
  m.map (fun p => (p.1, -p.2))

/-- Modelled from the spec: the symbolic combination of two unit values under
multiplication (section 4.2).  A sentinel operand (None or Zero, the unit of
a wrapped plain number) contributes no unit factor; when both operands are
sentinels the combination carries no unit at all and is None. -/
def unitMul : SUnit → SUnit → SUnit
  | SUnit.sym m1, SUnit.sym m2 => SUnit.sym (mulMap m1 m2)
  | SUnit.sym m, _ => SUnit.sym m
  | _, SUnit.sym m => SUnit.sym m
  | _, _ => SUnit.pnone

/-- Reciprocal of a symbolic unit; sentinels are unchanged. -/
def unitInv : SUnit → SUnit
  | SUnit.sym m => SUnit.sym (invMap m)
  | u => u

/-- Modelled from the spec: the symbolic quotient of two unit values. -/
def unitDiv (u v : SUnit) : SUnit := unitMul u (unitInv v)

/-- Modelled from the spec: a symbolic unit raised to a scalar integer
exponent (section 4.2, power rule); sentinels are unchanged. -/
def unitPow : SUnit → Int → SUnit
  | SUnit.sym m, n => SUnit.sym (m.foldr (fun p acc => insertExp p.1 (p.2 * n) acc) [])
  | u, _ => u

/-- The dimension slot of a Quantity: either the Python value None, the Zero
sentinel assigned at construction time, or a named dimension tag. -/
inductive Dim where
  | dnone : Dim
  | zero : Dim
  | name : String → Dim
  deriving DecidableEq, Repr

/-- Numeric storage type tag; integer input is upcast to double on
construction, so derived quantities are double precision. -/
inductive DType where
  | int : DType
  | double : DType
  deriving DecidableEq, Repr

/-- Modelled from the spec: the external unit database (section 6).  Each
base unit name is mapped to its dimension tag and its linear scale factor
relative to the base unit of that dimension. -/
def baseUnits : List (String × String × ℚ) :=
  [("meter", ("length", 1)),
   ("centimeter", ("length", 1 / 100)),
   ("kilometer", ("length", 1000)),
   ("second", ("time", 1)),
   ("minute", ("time", 60)),
   ("hour", ("time", 3600))]

/-- Modelled from the spec: the dimension tag attached to a base unit by the
external unit database, if any. -/
def baseDim (s : String) : Option String :=
  (baseUnits.find? (fun p => p.1 == s)).map (fun p => p.2.1)

/-- The dimension attribute of a resolved unit value.  Only an atomic unit
carries a dimension attribute; a composite expression, the One or Zero
sentinels and None have none, which the Python code observes as an
AttributeError. -/
def unitDim : SUnit → Option String
  | SUnit.sym [(b, e)] => if e = 1 then baseDim b else none
  | _ => none

/-- A unit identifier as accepted by the code: either a string to be parsed
or an already resolved unit object. -/
inductive UnitInput where
  | str : String → UnitInput
  | resolved : SUnit → UnitInput
  deriving DecidableEq, Repr

/-- Modelled from the spec: get_unit resolves any accepted unit
representation to a unit reference (section 6); a base-unit name resolves to
the corresponding atomic unit and an already resolved unit passes through
unchanged. -/
def get_unit : UnitInput → SUnit
  | UnitInput.str s => SUnit.sym [(s, 1)]
  | UnitInput.resolved u => u

/-- Modelled from the spec: lookup in the Units table keyed by dimension name
and unit, returning the linear scale factor (section 6); a missing entry is a
lookup failure (KeyError in the Python code). -/
def UnitsTable (dim : String) (u : SUnit) : Option ℚ :=
  match u with
  | SUnit.sym [(b, e)] =>
      if e = 1 then
        match baseUnits.find? (fun p => p.1 == b) with
        | some p => if p.2.1 == dim then some p.2.2 else none
        | none => none
      else none
  | _ => none

/-- The Quantity record: the numeric values together with the metadata the
Python class stores on the instance. -/
structure Quantity where
  value : List ℚ
  unit : SUnit
  dimension : Dim
  name : String
  constant : Bool
  copy : Bool
  order : Option String
  subok : Bool
  ndmin : Nat
  dtype : DType
  deriving DecidableEq, Repr

/-- Embedding of Quantity.__new__ (quantity.py lines 19 to 158).  The value
is already a flat list of at least one element, standing for the result of
np.atleast_1d; integer input is upcast so the stored dtype is double.  If the
unit is omitted both unit and dimension are the Zero sentinel; otherwise the
unit is resolved and the dimension read from it, falling back to the Zero
sentinel when the resolved unit has no dimension attribute. -/
def quantityNew (value : List ℚ) (unit : Option UnitInput) (dtype : Option DType)
    (copy : Bool) (order : Option String) (subok : Bool) (ndmin : Nat)
    (name : Option String) (constant : Bool) : Quantity :=
  match unit with
  | none =>
      { value := value, unit := SUnit.zero, dimension := Dim.zero,
        name := name.getD "", constant := constant, copy := copy, order := order,
        subok := subok, ndmin := ndmin, dtype := DType.double }
  | some ui =>
      let uu := get_unit ui
      { value := value, unit := uu,
        dimension := match unitDim uu with
          | some sname => Dim.name sname
          | none => Dim.zero,
        name := name.getD "", constant := constant, copy := copy, order := order,
        subok := subok, ndmin := ndmin, dtype := DType.double }

/-- Dimension recomputed from a unit inside __set_attributes: the dimension
attribute if the unit has one, the Python value None otherwise. -/
def dimFromUnit (u : SUnit) : Dim :=
  match unitDim u with
  | some s => Dim.name s
  | none => Dim.dnone

/-- Embedding of Quantity.__set_attributes (quantity.py lines 685 to 702).
A unit that is None or the One sentinel is stored as None; the dimension is
re-derived from the stored unit and collapses to None when the unit has no
dimension attribute.  The name field is not touched. -/
def setAttributes (q : Quantity) (unit : SUnit) (value : List ℚ) (dtype : DType)
    (copy : Bool) (order : Option String) (subok : Bool) (constant : Bool)
    (ndmin : Nat) : Quantity :=
  let u := if unit = SUnit.pnone ∨ unit = SUnit.sym [] then SUnit.pnone
           else get_unit (UnitInput.resolved unit)
  { q with unit := u, value := value, dtype := dtype, copy := copy, order := order,
           subok := subok, constant := constant, ndmin := ndmin,
           dimension := dimFromUnit u }

/-- Embedding of Quantity.__create_new_instance (quantity.py lines 704 to
729).  A unit that is None, the literal one, or the One sentinel is
normalized to None, the dtype defaults to the dtype of the parent, the
configuration flags are taken from the parent, and the name is set last. -/
def createNewInstance (q : Quantity) (value : List ℚ) (unit : SUnit)
    (name : String) (dtype : Option DType) : Quantity :=
  let u := if unit = SUnit.pnone ∨ unit = SUnit.sym [] then SUnit.pnone else unit
  let dt := match dtype with
    | none => q.dtype
    | some d => d
  let view := setAttributes q u value dt q.copy q.order q.subok q.constant q.ndmin
  { view with name := name }

/-- The right-hand operand of an operator: another Quantity, or a plain
array that __check_other passes through np.atleast_1d. -/
inductive Operand where
  | quant : Quantity → Operand
  | raw : List ℚ → Operand
  deriving DecidableEq, Repr

/-- Modelled from the spec: the unit of an operand; a plain array carries no
unit metadata and contributes None (section 4.2, step 1). -/
def operandUnit : Operand → SUnit
  | Operand.quant q => q.unit
  | Operand.raw _ => SUnit.pnone

/-- Values of an operand. -/
def operandValue : Operand → List ℚ
  | Operand.quant q => q.value
  | Operand.raw v => v

/-- Name of an operand; a plain array has none. -/
def operandName : Operand → String
  | Operand.quant q => q.name
  | Operand.raw _ => ""

/-- The arithmetic operator tags dispatched by the magic methods. -/
inductive ArithOp where
  | add : ArithOp
  | sub : ArithOp
  | mul : ArithOp
  | div : ArithOp
  | floordiv : ArithOp
  | mod : ArithOp
  | pow : ArithOp
  deriving DecidableEq, Repr

/-- The primitive elementwise numeric operation for each operator, on exact
rationals.  The power case is modelled for non-negative integer exponents,
the only exponents the verified claims exercise. -/
def primOp : ArithOp → ℚ → ℚ → ℚ
  | ArithOp.add, x, y => x + y
  | ArithOp.sub, x, y => x - y
  | ArithOp.mul, x, y => x * y
  | ArithOp.div, x, y => x / y
  | ArithOp.floordiv, x, y => (⌊x / y⌋ : ℚ)
  | ArithOp.mod, x, y => x - y * (⌊x / y⌋ : ℚ)
  | ArithOp.pow, x, y => x ^ (⌊y⌋.toNat)

/-- Elementwise application with the broadcasting rule for length-one
operands, mirroring the array library. -/
def broadcast (f : ℚ → ℚ → ℚ) (xs ys : List ℚ) : List ℚ :=
  if xs.length = 1 then ys.map (fun y => f (xs.headD 0) y)
  else if ys.length = 1 then xs.map (fun x => f x (ys.headD 0))
  else List.zipWith f xs ys

/-- Modelled from the spec: the unit-combination rule of the operator
resolver (section 4.2, step 2).  Additive operators keep the unit of the
left operand, with no dimension check: per the design notes of the spec the
source performs no explicit dimension check before addition.  Multiplicative
operators combine the units symbolically; the power operator raises the left
unit to the scalar exponent taken from the right operand. -/
def resolveUnit (op : ArithOp) (lu ru : SUnit) (rv : List ℚ) : SUnit :=
  match op with
  | ArithOp.add => lu
  | ArithOp.sub => lu
  | ArithOp.mul => unitMul lu ru
  | ArithOp.div => unitDiv lu ru
  | ArithOp.floordiv => unitDiv lu ru
  | ArithOp.mod => lu
  | ArithOp.pow => unitPow lu ⌊rv.headD 0⌋

/-- The value, unit, dtype and name tuple returned by the operator engine. -/
structure OpResult where
  value : List ℚ
  unit : SUnit
  dtype : DType
  name : String
  deriving DecidableEq, Repr

/-- Modelled from the spec: compute_operation of respy.unit_base.operations
(section 4.2).  For a reflected operator the operands are swapped, the
primitive numeric operation is executed elementwise with broadcasting, the
unit is resolved by the per-operator rule applied to the swapped pair, the
name is inherited from the mathematical left operand, and the dtype is
inherited. -/
def compute_operation (self : Quantity) (other : Operand) (op : ArithOp)
    (right_handed : Bool) : OpResult :=
  let lu := if right_handed then operandUnit other else self.unit
  let ru := if right_handed then self.unit else operandUnit other
  let lv := if right_handed then operandValue other else self.value
  let rv := if right_handed then self.value else operandValue other
  let ln := if right_handed then operandName other else self.name
  { value := broadcast (primOp op) lv rv,
    unit := resolveUnit op lu ru rv,
    dtype := self.dtype,
    name := ln }

/-- Modelled from the spec: compute_bitwise_operation of
respy.unit_base.operations (section 4.2, bitwise paragraph).  It executes
the primitive operation on the raw values and returns the raw result without
reconstructing a Quantity, so no unit metadata survives. -/
def compute_bitwise_operation (self : Quantity) (other : Operand)
    (op : ArithOp) (right_handed : Bool) : List ℚ :=
  let lv := if right_handed then operandValue other else self.value
  let rv := if right_handed then self.value else operandValue other
  broadcast (primOp op) lv rv

/-- Embedding of Quantity.__add__ (lines 252 to 261): a resolved unit of
None is replaced by the Zero sentinel before wrapping. -/
def qadd (self : Quantity) (other : Operand) : Quantity :=
  let r := compute_operation self other ArithOp.add false
  let u := if r.unit = SUnit.pnone then SUnit.zero else r.unit
  createNewInstance self r.value u r.name (some r.dtype)

/-- Embedding of Quantity.__sub__ (lines 263 to 272). -/
def qsub (self : Quantity) (other : Operand) : Quantity :=
  let r := compute_operation self other ArithOp.sub false
  let u := if r.unit = SUnit.pnone then SUnit.zero else r.unit
  createNewInstance self r.value u r.name (some r.dtype)

/-- Embedding of Quantity.__mul__ (lines 206 to 215). -/
def qmul (self : Quantity) (other : Operand) : Quantity :=
  let r := compute_operation self other ArithOp.mul false
  let u := if r.unit = SUnit.pnone then SUnit.zero else r.unit
  createNewInstance self r.value u r.name (some r.dtype)

/-- Embedding of Quantity.__truediv__ (lines 217 to 226). -/
def qdiv (self : Quantity) (other : Operand) : Quantity :=
  let r := compute_operation self other ArithOp.div false
  let u := if r.unit = SUnit.pnone then SUnit.zero else r.unit
  createNewInstance self r.value u r.name (some r.dtype)

/-- Embedding of Quantity.__floordiv__ (lines 228 to 237). -/
def qfloordiv (self : Quantity) (other : Operand) : Quantity :=
  let r := compute_operation self other ArithOp.floordiv false
  let u := if r.unit = SUnit.pnone then SUnit.zero else r.unit
  createNewInstance self r.value u r.name (some r.dtype)

/-- Embedding of Quantity.__mod__ (lines 239 to 248). -/
def qmod (self : Quantity) (other : Operand) : Quantity :=
  let r := compute_operation self other ArithOp.mod false
  let u := if r.unit = SUnit.pnone then SUnit.zero else r.unit
  createNewInstance self r.value u r.name (some r.dtype)

/-- Embedding of Quantity.__pow__ (lines 274 to 283). -/
def qpow (self : Quantity) (other : Operand) : Quantity :=
  let r := compute_operation self other ArithOp.pow false
  let u := if r.unit = SUnit.pnone then SUnit.zero else r.unit
  createNewInstance self r.value u r.name (some r.dtype)

/-- Embedding of Quantity.__rtruediv__ (lines 319 to 328). -/
def qrtruediv (self : Quantity) (other : Operand) : Quantity :=
  let r := compute_operation self other ArithOp.div true
  let u := if r.unit = SUnit.pnone then SUnit.zero else r.unit
  createNewInstance self r.value u r.name (some r.dtype)

/-- Embedding of Quantity.__rsub__ (lines 332 to 341). -/
def qrsub (self : Quantity) (other : Operand) : Quantity :=
  let r := compute_operation self other ArithOp.sub true
  let u := if r.unit = SUnit.pnone then SUnit.zero else r.unit
  createNewInstance self r.value u r.name (some r.dtype)

/-- Embedding of Quantity.__rfloordiv__ (lines 355 to 361).  Unlike every
other arithmetic wrapper this method performs no replacement of a None unit
by the Zero sentinel. -/
def qrfloordiv (self : Quantity) (other : Operand) : Quantity :=
  let r := compute_operation self other ArithOp.floordiv true
  createNewInstance self r.value r.unit r.name (some r.dtype)

/-- Embedding of Quantity.__rmod__ (lines 363 to 367): the method dispatches
through compute_bitwise_operation and returns its raw result. -/
def qrmod (self : Quantity) (other : Operand) : List ℚ :=
  compute_bitwise_operation self other ArithOp.mod true

/-- Embedding of Quantity.__rpow__ (lines 369 to 373): the method dispatches
through compute_bitwise_operation and returns its raw result. -/
def qrpow (self : Quantity) (other : Operand) : List ℚ :=
  compute_bitwise_operation self other ArithOp.pow true

/-- Embedding of Quantity.__iter__ (lines 472 to 477): one single-element
Quantity per entry of the value array, built with the unit and name of the
parent. -/
def qiter (self : Quantity) : List Quantity :=
  self.value.map (fun item => createNewInstance self [item] self.unit self.name none)

/-- Errors of the conversion path: a missing entry in the Units table, or a
failure of the external cross-representation converter. -/
inductive ConvErr where
  | keyError : ConvErr
  | convFail : ConvErr
  deriving DecidableEq, Repr

/-- Scale factor of a composite symbolic unit, the product of the base scale
factors raised to their exponents. -/
def symScale : List (String × Int) → Option ℚ
  | [] => some 1
  | (b, e) :: rest => do
      let p ← baseUnits.find? (fun q => q.1 == b)
      let r ← symScale rest
      pure (p.2.2 ^ e * r)

/-- Modelled from the spec: convert_to_unit of respy.unit_base.convert
(section 4.5, cross-representation path).  The expression value times unit
is decomposed against the target unit, which amounts to rescaling by the
ratio of the two composite scale factors; it fails when either unit is not a
symbolic expression over known base units. -/
def convert_to_unit (value : List ℚ) (fromU toU : SUnit) : Option (List ℚ) :=
  match fromU, toU with
  | SUnit.sym m1, SUnit.sym m2 => do
      let f1 ← symScale m1
      let f2 ← symScale m2
      pure (value.map (fun v => v * f1 / f2))
  | _, _ => none

/-- The value computation of Quantity.convert_to (lines 630 to 673): when
the target unit has a dimension attribute equal to the stored dimension the
values are rescaled through the Units table; otherwise, and also when the
target unit has no dimension attribute, the cross-representation converter
is used. -/
def convertValues (self : Quantity) (u : SUnit) : Except ConvErr (List ℚ) :=
  match unitDim u with
  | some dimension =>
      if Dim.name dimension = self.dimension then
        match UnitsTable dimension self.unit, UnitsTable dimension u with
        | some f1, some f2 =>
            Except.ok (self.value.map (fun v => v * f1 / f2))
        | _, _ => Except.error ConvErr.keyError
      else
        match convert_to_unit self.value self.unit u with
        | some v => Except.ok v
        | none => Except.error ConvErr.convFail
  | none =>
      match convert_to_unit self.value self.unit u with
      | some v => Except.ok v
      | none => Except.error ConvErr.convFail

/-- Embedding of Quantity.convert_to (lines 612 to 679), with the in-place
update modelled by returning the updated state as the second component.  In
place, __set_attributes overwrites unit, values, dtype and dimension, passes
the configuration flags through and passes False for the constant flag, and
nothing is returned; otherwise the receiver is unchanged and a new Quantity
with the resolved unit, the converted values and the original name is
returned. -/
def convert_to (self : Quantity) (unit : UnitInput) (inplace : Bool) :
    Except ConvErr (Option Quantity × Quantity) :=
  let u := get_unit unit
  match convertValues self u with
  | Except.error e => Except.error e
  | Except.ok value =>
      if inplace then
        Except.ok (none,
          setAttributes self u value self.dtype self.copy self.order self.subok
            false self.ndmin)
      else
        Except.ok (some (createNewInstance self value u self.name none), self)

/-- Normalization applied to the unit resolved for a wrapped arithmetic
result: None becomes the Zero sentinel in the operator method, and the One
sentinel becomes None inside __create_new_instance. -/
def normUnit (u : SUnit) : SUnit :=
  if u = SUnit.pnone then SUnit.zero
  else if u = SUnit.sym [] then SUnit.pnone
  else u

/-- Convenience constructor matching the Python call Quantity(value, unit)
with all remaining parameters at their defaults. -/
def mkQ (v : List ℚ) (u : Option UnitInput) : Quantity :=
  quantityNew v u none true none false 0 none false

/-- One meter, as Quantity(1, "meter"). -/
def qM1 : Quantity := mkQ [1] (some (UnitInput.str "meter"))

/-- One second, as Quantity(1, "second"). -/
def qS1 : Quantity := mkQ [1] (some (UnitInput.str "second"))

/-- Two meters, as Quantity(2, "meter"). -/
def qM2 : Quantity := mkQ [2] (some (UnitInput.str "meter"))

/-- Six meters, as Quantity(6, "meter"). -/
def qM6 : Quantity := mkQ [6] (some (UnitInput.str "meter"))

/-- Five meters, as Quantity(5, "meter"). -/
def qM5 : Quantity := mkQ [5] (some (UnitInput.str "meter"))

/-- Ten meters, as Quantity(10, "meter"). -/
def qM10 : Quantity := mkQ [10] (some (UnitInput.str "meter"))

/-- Two meters times, as Quantity(2, "meter"), left factor of the product
scenario. -/
def qMul2 : Quantity := mkQ [2] (some (UnitInput.str "meter"))

/-- Three seconds, as Quantity(3, "second"). -/
def qS3 : Quantity := mkQ [3] (some (UnitInput.str "second"))

/-- A unit-less quantity, as Quantity(1). -/
def qDimless : Quantity := mkQ [1] none

/-- A two-element meter quantity, as Quantity([1, 2], "meter"). -/
def qMV : Quantity := mkQ [1, 2] (some (UnitInput.str "meter"))

/-- A meter quantity flagged as a constant, as
Quantity(1, "meter", constant=True). -/
def qConst : Quantity :=
  quantityNew [1] (some (UnitInput.str "meter")) none true none false 0 none true

/-- State of qConst after in-place conversion to centimeter, extracted from
the conversion result. -/
def qConstAfter : Option Quantity × Quantity :=
  match convert_to qConst (UnitInput.str "centimeter") true with
  | Except.ok p => p
  | Except.error _ => (none, qConst)

/-- The unit stored by __create_new_instance: None and the One sentinel are
collapsed to None, every other unit passes through. -/
theorem createNewInstance_unit (q : Quantity) (v : List ℚ) (u : SUnit) (n : String)
    (dt : Option DType) :
    (createNewInstance q v u n dt).unit =
      if u = SUnit.pnone ∨ u = SUnit.sym [] then SUnit.pnone else u := by
  by_cases h : u = SUnit.pnone ∨ u = SUnit.sym []
  · simp [createNewInstance, setAttributes, h]
  · simp [createNewInstance, setAttributes, h, get_unit]

/-- The dimension stored by __create_new_instance is re-derived from the
normalized unit. -/
theorem createNewInstance_dimension (q : Quantity) (v : List ℚ) (u : SUnit) (n : String)
    (dt : Option DType) :
    (createNewInstance q v u n dt).dimension =
      dimFromUnit (if u = SUnit.pnone ∨ u = SUnit.sym [] then SUnit.pnone else u) := by
  by_cases h : u = SUnit.pnone ∨ u = SUnit.sym []
  · simp [createNewInstance, setAttributes, h]
  · simp [createNewInstance, setAttributes, h, get_unit]

/-- The values stored by __create_new_instance are the values passed in. -/
theorem createNewInstance_value (q : Quantity) (v : List ℚ) (u : SUnit) (n : String)
    (dt : Option DType) : (createNewInstance q v u n dt).value = v := rfl

/-- The name stored by __create_new_instance is the name passed in. -/
theorem createNewInstance_name (q : Quantity) (v : List ℚ) (u : SUnit) (n : String)
    (dt : Option DType) : (createNewInstance q v u n dt).name = n := rfl

/-- A unit other than the One sentinel survives __create_new_instance
unchanged; in particular None stays None. -/
theorem create_unit_of_ne_one (q : Quantity) (v : List ℚ) (u : SUnit) (n : String)
    (dt : Option DType) (h : u ≠ SUnit.sym []) :
    (createNewInstance q v u n dt).unit = u := by
  rw [createNewInstance_unit]
  by_cases hp : u = SUnit.pnone
  · simp [hp]
  · simp [hp, h]

/-- The unit stored for a wrapped arithmetic result: the operator method
first replaces None by the Zero sentinel, then __create_new_instance
replaces the One sentinel by None. -/
theorem wrapUnit_norm (q : Quantity) (v : List ℚ) (u : SUnit) (n : String)
    (dt : Option DType) :
    (createNewInstance q v (if u = SUnit.pnone then SUnit.zero else u) n dt).unit =
      normUnit u := by
  by_cases hp : u = SUnit.pnone
  · simp [hp, createNewInstance_unit, normUnit]
  · by_cases h1 : u = SUnit.sym []
    · simp [hp, h1, createNewInstance_unit, normUnit]
    · simp [hp, h1, createNewInstance_unit, normUnit]

/-- A unit that is neither None nor the One sentinel passes unchanged
through the None-to-Zero replacement of the operator method and through
__create_new_instance. -/
theorem wrapUnit_id (q : Quantity) (v : List ℚ) (u : SUnit) (n : String)
    (dt : Option DType) (h1 : u ≠ SUnit.pnone) (h2 : u ≠ SUnit.sym []) :
    (createNewInstance q v (if u = SUnit.pnone then SUnit.zero else u) n dt).unit = u := by
  rw [wrapUnit_norm]
  simp [normUnit, h1, h2]

/-- The dimension stored for a wrapped arithmetic result whose resolved unit
is neither None nor the One sentinel is the dimension re-derived from that
unit. -/
theorem wrapDim_id (q : Quantity) (v : List ℚ) (u : SUnit) (n : String)
    (dt : Option DType) (h1 : u ≠ SUnit.pnone) (h2 : u ≠ SUnit.sym []) :
    (createNewInstance q v (if u = SUnit.pnone then SUnit.zero else u) n dt).dimension =
      dimFromUnit u := by
  rw [if_neg h1, createNewInstance_dimension, if_neg (by simp [h1, h2])]

/-- C1 (counterexample): adding or subtracting a meter Quantity and a second
Quantity raises nothing: the operation completes and returns a Quantity with
the raw numeric result and the unit of the left operand, so the claimed
Dimension Mismatch error does not occur. -/
theorem C1_counterexample :
    qM1.dimension ≠ qS1.dimension ∧
    (qadd qM1 (Operand.quant qS1)).value = [2] ∧
    (qadd qM1 (Operand.quant qS1)).unit = SUnit.sym [("meter", 1)] ∧
    (qsub qM1 (Operand.quant qS1)).value = [0] ∧
    (qsub qM1 (Operand.quant qS1)).unit = SUnit.sym [("meter", 1)] := by
  refine ⟨by decide, ?_, by decide, ?_, by decide⟩
  · norm_num [qadd, compute_operation, createNewInstance, setAttributes, mkQ, quantityNew,
      qM1, qS1, operandValue, operandUnit, operandName, broadcast, primOp, resolveUnit,
      get_unit, unitDim, baseDim, baseUnits, dimFromUnit]
  · norm_num [qsub, compute_operation, createNewInstance, setAttributes, mkQ, quantityNew,
      qM1, qS1, operandValue, operandUnit, operandName, broadcast, primOp, resolveUnit,
      get_unit, unitDim, baseDim, baseUnits, dimFromUnit]

/-- C1 (amended): for Quantities of differing dimensions the additive
operators raise no error; they return a Quantity whose values are the raw
elementwise result and whose unit is the unit of the left operand after
sentinel normalization: a left unit of None is stored as the Zero sentinel
and a left unit equal to the One sentinel is stored as None, while any
other left unit, in particular every dimensioned unit such as meter, is
kept unchanged. -/
theorem C1_no_error (a b : Quantity)
    (hdim : a.dimension ≠ b.dimension) :
    (qadd a (Operand.quant b)).value = broadcast (primOp ArithOp.add) a.value b.value ∧
    (qadd a (Operand.quant b)).unit = normUnit a.unit ∧
    (qsub a (Operand.quant b)).value = broadcast (primOp ArithOp.sub) a.value b.value ∧
    (qsub a (Operand.quant b)).unit = normUnit a.unit := by
  exact ⟨rfl,
    wrapUnit_norm a (broadcast (primOp ArithOp.add) a.value b.value) a.unit a.name
      (some a.dtype),
    rfl,
    wrapUnit_norm a (broadcast (primOp ArithOp.sub) a.value b.value) a.unit a.name
      (some a.dtype)⟩

/-- C1 (witness): the amended statement applied to one meter plus one
second, a left operand with an ordinary dimensioned unit, and to the
None-unit quotient of six meters by two meters plus one second, a left
operand whose None unit is normalized to the Zero sentinel. -/
theorem C1_no_error_witness :
    (qadd qM1 (Operand.quant qS1)).unit = normUnit qM1.unit ∧
    (qsub qM1 (Operand.quant qS1)).unit = normUnit qM1.unit ∧
    (qadd (qdiv qM6 (Operand.quant qM2)) (Operand.quant qS1)).unit =
      normUnit (qdiv qM6 (Operand.quant qM2)).unit :=
  ⟨(C1_no_error qM1 qS1 (by decide)).2.1,
   (C1_no_error qM1 qS1 (by decide)).2.2.2,
   (C1_no_error (qdiv qM6 (Operand.quant qM2)) qS1 (by decide)).2.1⟩

/-- C2 (counterexample): for two identical unit-less Quantities, which are
dimension compatible, the sum does not keep the dimension of the left
operand: a fresh unit-less Quantity carries the Zero sentinel as dimension
but the sum carries None, because __set_attributes re-derives the dimension
with a None fallback. -/
theorem C2_counterexample :
    qDimless.dimension = Dim.zero ∧
    (qadd qDimless (Operand.quant qDimless)).dimension = Dim.dnone ∧
    (qadd qDimless (Operand.quant qDimless)).dimension ≠ qDimless.dimension := by
  decide

/-- C2 (amended): for Quantities a and b of equal dimension such that the
unit of a has a resolvable dimension, the sum keeps both the unit and the
dimension of a; for units without a resolvable dimension, such as the
dimensionless sentinel, the dimension of the sum collapses to None instead.
-/
theorem C2_add_unit_dimension (a b : Quantity) (d : String)
    (hd : unitDim a.unit = some d)
    (had : a.dimension = Dim.name d)
    (hcompat : b.dimension = a.dimension) :
    (qadd a (Operand.quant b)).unit = a.unit ∧
    (qadd a (Operand.quant b)).dimension = a.dimension := by
  have h1 : a.unit ≠ SUnit.pnone := by
    intro h; rw [h] at hd; simp [unitDim] at hd
  have h2 : a.unit ≠ SUnit.sym [] := by
    intro h; rw [h] at hd; simp [unitDim] at hd
  constructor
  · exact wrapUnit_id a (broadcast (primOp ArithOp.add) a.value b.value) a.unit a.name
      (some a.dtype) h1 h2
  · have h3 := wrapDim_id a (broadcast (primOp ArithOp.add) a.value b.value) a.unit a.name
      (some a.dtype) h1 h2
    exact h3.trans (by simp [dimFromUnit, hd, had])

/-- C2 (witness): the amended statement applied to one meter plus two
meters. -/
theorem C2_add_unit_dimension_witness :
    (qadd qM1 (Operand.quant qM2)).unit = qM1.unit ∧
    (qadd qM1 (Operand.quant qM2)).dimension = qM1.dimension :=
  C2_add_unit_dimension qM1 qM2 "length" (by decide) (by decide) (by decide)

/-- C3 (counterexample): dividing six meters by two meters gives a symbolic
quotient that reduces to the dimensionless One, but the unit of the returned
Quantity is None, not that symbolic quotient. -/
theorem C3_counterexample :
    unitDiv qM6.unit qM2.unit = SUnit.sym [] ∧
    (qdiv qM6 (Operand.quant qM2)).unit = SUnit.pnone ∧
    SUnit.pnone ≠ SUnit.sym [] := by decide

/-- C3 (amended): the unit of a product or quotient of Quantities is the
symbolic combination of the operand units after sentinel normalization: a
combination that is None becomes the Zero sentinel and a combination that
reduces to the dimensionless One becomes None; any other combination is
returned unchanged, and the multiplication scenario holds as stated. -/
theorem C3_mul_div_unit :
    (∀ a b : Quantity,
        (qmul a (Operand.quant b)).unit = normUnit (unitMul a.unit b.unit)) ∧
    (∀ a b : Quantity,
        (qdiv a (Operand.quant b)).unit = normUnit (unitDiv a.unit b.unit)) ∧
    (qmul qMul2 (Operand.quant qS3)).value = [6] ∧
    (qmul qMul2 (Operand.quant qS3)).unit = SUnit.sym [("meter", 1), ("second", 1)] := by
  refine ⟨?_, ?_, ?_, by decide⟩
  · intro a b
    exact wrapUnit_norm a (broadcast (primOp ArithOp.mul) a.value b.value)
      (unitMul a.unit b.unit) a.name (some a.dtype)
  · intro a b
    exact wrapUnit_norm a (broadcast (primOp ArithOp.div) a.value b.value)
      (unitDiv a.unit b.unit) a.name (some a.dtype)
  · norm_num [qmul, compute_operation, createNewInstance, setAttributes, mkQ, quantityNew,
      qMul2, qS3, operandValue, operandUnit, operandName, broadcast, primOp, resolveUnit,
      get_unit, unitDim, baseDim, baseUnits, dimFromUnit]

/-- C4: converting a Quantity to another unit of the same dimension and back
to its own unit reproduces the original values; in the exact rational model
the round trip is exactly the identity whenever both scale factors in the
Units table are defined and nonzero. -/
theorem C4_convert_roundtrip (a : Quantity) (s u d : String) (f1 f2 : ℚ)
    (hau : a.unit = SUnit.sym [(s, 1)])
    (had : a.dimension = Dim.name d)
    (hs : baseDim s = some d)
    (hu : baseDim u = some d)
    (ht1 : UnitsTable d a.unit = some f1)
    (ht2 : UnitsTable d (SUnit.sym [(u, 1)]) = some f2)
    (hf1 : f1 ≠ 0) (hf2 : f2 ≠ 0) :
    ∃ r r2 : Quantity,
      convert_to a (UnitInput.str u) false = Except.ok (some r, a) ∧
      convert_to r (UnitInput.resolved a.unit) false = Except.ok (some r2, r) ∧
      r2.value = a.value := by
  have hdu : unitDim (SUnit.sym [(u, 1)]) = some d := by simp [unitDim, hu]
  have hsu : unitDim a.unit = some d := by rw [hau]; simp [unitDim, hs]
  have hcv1 : convertValues a (SUnit.sym [(u, 1)]) =
      Except.ok (a.value.map (fun v => v * f1 / f2)) := by
    simp only [convertValues, hdu, had, ht1, ht2, if_true]
  refine ⟨createNewInstance a (a.value.map (fun v => v * f1 / f2))
      (SUnit.sym [(u, 1)]) a.name none, ?_⟩
  have hru : (createNewInstance a (a.value.map (fun v => v * f1 / f2))
      (SUnit.sym [(u, 1)]) a.name none).unit = SUnit.sym [(u, 1)] := by
    rw [createNewInstance_unit, if_neg (by simp)]
  have hrdim : (createNewInstance a (a.value.map (fun v => v * f1 / f2))
      (SUnit.sym [(u, 1)]) a.name none).dimension = Dim.name d := by
    rw [createNewInstance_dimension, if_neg (by simp)]
    simp [dimFromUnit, hdu]
  have hrval : (createNewInstance a (a.value.map (fun v => v * f1 / f2))
      (SUnit.sym [(u, 1)]) a.name none).value = a.value.map (fun v => v * f1 / f2) := rfl
  have hcv2 : convertValues (createNewInstance a (a.value.map (fun v => v * f1 / f2))
        (SUnit.sym [(u, 1)]) a.name none) a.unit =
      Except.ok ((a.value.map (fun v => v * f1 / f2)).map (fun v => v * f2 / f1)) := by
    simp only [convertValues, hsu, hrdim, hru, hrval, ht1, ht2, if_true]
  refine ⟨createNewInstance (createNewInstance a (a.value.map (fun v => v * f1 / f2))
      (SUnit.sym [(u, 1)]) a.name none)
      ((a.value.map (fun v => v * f1 / f2)).map (fun v => v * f2 / f1))
      a.unit a.name none, ?_, ?_, ?_⟩
  · simp only [convert_to, get_unit, hcv1]
    rfl
  · simp only [convert_to, get_unit, hcv2]
    rfl
  · rw [createNewInstance_value, List.map_map]
    have hcomp : ((fun v => v * f2 / f1) ∘ (fun v => v * f1 / f2)) = fun v : ℚ => v := by
      funext v
      field_simp
    rw [hcomp]
    exact List.map_id a.value

/-- C4 (witness): ten meters converted to centimeters and back. -/
theorem C4_convert_roundtrip_witness :
    ∃ r r2 : Quantity,
      convert_to qM10 (UnitInput.str "centimeter") false = Except.ok (some r, qM10) ∧
      convert_to r (UnitInput.resolved qM10.unit) false = Except.ok (some r2, r) ∧
      r2.value = qM10.value :=
  C4_convert_roundtrip qM10 "meter" "centimeter" "length" 1 (1 / 100)
    (by decide) (by decide) (by decide) (by decide) rfl rfl
    (by norm_num) (by norm_num)

/-- C5 (counterexample): in-place conversion does not leave the constant
flag unchanged: a Quantity constructed with constant True has constant False
after convert_to with inplace True, because the code passes False into
__set_attributes. -/
theorem C5_counterexample :
    qConst.constant = true ∧ qConstAfter.1 = none ∧ qConstAfter.2.constant = false := by
  exact ⟨by decide, by decide, by decide⟩

/-- C5 (amended): for every successful conversion, the in-place path
overwrites unit, values, dtype and dimension together, keeps name, copy,
order, subok and ndmin, resets constant to False and returns nothing, the
dimension being re-derived from the stored unit; the non-in-place path
leaves the receiver unchanged and returns a new Quantity carrying the
original name, the converted values and the resolved unit after sentinel
normalization. -/
theorem C5_convert_to_effects :
    (∀ (q : Quantity) (u : UnitInput) (qA : Quantity),
        convert_to q u true = Except.ok (none, qA) →
        qA.name = q.name ∧ qA.constant = false ∧ qA.copy = q.copy ∧
        qA.order = q.order ∧ qA.subok = q.subok ∧ qA.ndmin = q.ndmin ∧
        qA.dtype = q.dtype ∧ qA.dimension = dimFromUnit qA.unit) ∧
    (∀ (q : Quantity) (u : UnitInput) (res : Option Quantity × Quantity),
        convert_to q u true = Except.ok res → res.1 = none) ∧
    (∀ (q : Quantity) (u : UnitInput) (r q2 : Quantity),
        convert_to q u false = Except.ok (some r, q2) →
        q2 = q ∧ r.name = q.name ∧ convertValues q (get_unit u) = Except.ok r.value ∧
        r.unit = (if get_unit u = SUnit.pnone ∨ get_unit u = SUnit.sym []
                  then SUnit.pnone else get_unit u)) := by
  refine ⟨?_, ?_, ?_⟩
  · intro q u qA h
    simp only [convert_to] at h
    cases hcv : convertValues q (get_unit u) with
    | error e => rw [hcv] at h; exact absurd h (by simp)
    | ok val =>
        rw [hcv] at h
        simp only [if_true, Except.ok.injEq, Prod.mk.injEq, true_and] at h
        subst h
        exact ⟨rfl, rfl, rfl, rfl, rfl, rfl, rfl, rfl⟩
  · intro q u res h
    simp only [convert_to] at h
    cases hcv : convertValues q (get_unit u) with
    | error e => rw [hcv] at h; exact absurd h (by simp)
    | ok val =>
        rw [hcv] at h
        simp only [if_true, Except.ok.injEq] at h
        rw [← h]
  · intro q u r q2 h
    simp only [convert_to] at h
    cases hcv : convertValues q (get_unit u) with
    | error e => rw [hcv] at h; exact absurd h (by simp)
    | ok val =>
        rw [hcv] at h
        simp only [Bool.false_eq_true, if_false, Except.ok.injEq, Prod.mk.injEq,
          Option.some.injEq] at h
        obtain ⟨hr, hq2⟩ := h
        subst hq2
        refine ⟨rfl, ?_, ?_, ?_⟩
        · rw [← hr]; rfl
        · rw [← hr, createNewInstance_value]
        · rw [← hr, createNewInstance_unit]

/-- C5 (witness): the amended statement applied to a constant meter Quantity
converted in place to centimeters. -/
theorem C5_convert_to_effects_witness :
    qConstAfter.2.constant = false ∧ qConstAfter.2.name = qConst.name := by
  have h : convert_to qConst (UnitInput.str "centimeter") true =
      Except.ok (none, qConstAfter.2) := rfl
  exact ⟨(C5_convert_to_effects.1 qConst (UnitInput.str "centimeter") qConstAfter.2 h).2.1,
         (C5_convert_to_effects.1 qConst (UnitInput.str "centimeter") qConstAfter.2 h).1⟩

/-- C6: reflected modulo and power do not wrap their result: they dispatch
through compute_bitwise_operation and return the raw numeric array with no
unit attached, while a reflected operator such as __rsub__ does return a
unit-carrying Quantity; evaluated at the failing inputs. -/
theorem C6_rmod_rpow_raw :
    qrmod qM5 (Operand.raw [2]) = [2] ∧
    qrpow qM5 (Operand.raw [2]) = [32] ∧
    (qrsub qM5 (Operand.raw [7])).value = [2] ∧
    (qrsub qM5 (Operand.raw [7])).unit = SUnit.zero := by
  refine ⟨?_, ?_, ?_, by decide⟩
  · norm_num [qrmod, compute_bitwise_operation, mkQ, quantityNew, qM5,
      operandValue, broadcast, primOp, get_unit, unitDim, baseDim, baseUnits]
  · have h5 : Int.toNat 5 = 5 := rfl
    norm_num [qrpow, compute_bitwise_operation, mkQ, quantityNew, qM5,
      operandValue, broadcast, primOp, get_unit, unitDim, baseDim, baseUnits, h5]
  · norm_num [qrsub, compute_operation, createNewInstance, setAttributes, mkQ, quantityNew,
      qM5, operandValue, operandUnit, operandName, broadcast, primOp, resolveUnit,
      get_unit, unitDim, baseDim, baseUnits, dimFromUnit]

/-- C7: construction with the unit omitted assigns the Zero sentinel to both
unit and dimension; construction with a unit identifier that resolves to a
unit without a resolvable dimension keeps the resolved unit and falls back
to the Zero sentinel for the dimension, raising nothing. -/
theorem C7_construction :
    (∀ (v : List ℚ) (dt : Option DType) (c : Bool) (o : Option String) (sk : Bool)
        (nd : Nat) (nm : Option String) (ct : Bool),
        (quantityNew v none dt c o sk nd nm ct).unit = SUnit.zero ∧
        (quantityNew v none dt c o sk nd nm ct).dimension = Dim.zero) ∧
    (∀ (v : List ℚ) (ui : UnitInput) (dt : Option DType) (c : Bool) (o : Option String)
        (sk : Bool) (nd : Nat) (nm : Option String) (ct : Bool),
        unitDim (get_unit ui) = none →
        (quantityNew v (some ui) dt c o sk nd nm ct).unit = get_unit ui ∧
        (quantityNew v (some ui) dt c o sk nd nm ct).dimension = Dim.zero) := by
  constructor
  · intro v dt c o sk nd nm ct
    exact ⟨rfl, rfl⟩
  · intro v ui dt c o sk nd nm ct h
    refine ⟨rfl, ?_⟩
    simp [quantityNew, h]

/-- C7 (witness): Quantity(7) and Quantity(7, "decibel"), the latter a unit
absent from the dimension table. -/
theorem C7_construction_witness :
    (mkQ [7] none).unit = SUnit.zero ∧ (mkQ [7] none).dimension = Dim.zero ∧
    (mkQ [7] (some (UnitInput.str "decibel"))).unit = SUnit.sym [("decibel", 1)] ∧
    (mkQ [7] (some (UnitInput.str "decibel"))).dimension = Dim.zero :=
  ⟨(C7_construction.1 [7] none true none false 0 none false).1,
   (C7_construction.1 [7] none true none false 0 none false).2,
   (C7_construction.2 [7] (UnitInput.str "decibel") none true none false 0 none false
      (by decide)).1,
   (C7_construction.2 [7] (UnitInput.str "decibel") none true none false 0 none false
      (by decide)).2⟩

/-- C8 (counterexample): the code keeps two distinct "no unit" values: a
quotient of equal units resolves to the dimensionless One and is stored as
None, while a unit-less construction stores the Zero sentinel, and the two
are different. -/
theorem C8_counterexample :
    unitDiv qM6.unit qM2.unit = SUnit.sym [] ∧
    (qdiv qM6 (Operand.quant qM2)).unit = SUnit.pnone ∧
    (mkQ [3] none).unit = SUnit.zero ∧
    SUnit.pnone ≠ SUnit.zero := by decide

/-- C8 (amended): a resolved unit of None is normalized to the Zero sentinel
that a unit-less construction also stores, but a resolved unit equal to the
dimensionless One sentinel is normalized to None, a second distinct no-unit
representation. -/
theorem C8_sentinel_normalization :
    (∀ a b : Quantity, unitMul a.unit b.unit = SUnit.pnone →
        (qmul a (Operand.quant b)).unit = SUnit.zero) ∧
    (∀ a b : Quantity, unitDiv a.unit b.unit = SUnit.sym [] →
        (qdiv a (Operand.quant b)).unit = SUnit.pnone) ∧
    (∀ v : List ℚ, (mkQ v none).unit = SUnit.zero) := by
  refine ⟨?_, ?_, ?_⟩
  · intro a b h
    have h1 : (qmul a (Operand.quant b)).unit = normUnit (unitMul a.unit b.unit) :=
      wrapUnit_norm a (broadcast (primOp ArithOp.mul) a.value b.value)
        (unitMul a.unit b.unit) a.name (some a.dtype)
    rw [h1, h]
    simp [normUnit]
  · intro a b h
    have h1 : (qdiv a (Operand.quant b)).unit = normUnit (unitDiv a.unit b.unit) :=
      wrapUnit_norm a (broadcast (primOp ArithOp.div) a.value b.value)
        (unitDiv a.unit b.unit) a.name (some a.dtype)
    rw [h1, h]
    simp [normUnit]
  · intro v
    rfl

/-- C8 (witness): the amended statement applied to a product of two unit-less
Quantities and to a quotient of equal meter units. -/
theorem C8_sentinel_normalization_witness :
    (qmul qDimless (Operand.quant qDimless)).unit = SUnit.zero ∧
    (qdiv qM6 (Operand.quant qM2)).unit = SUnit.pnone :=
  ⟨C8_sentinel_normalization.1 qDimless qDimless (by decide),
   C8_sentinel_normalization.2.1 qM6 qM2 (by decide)⟩

/-- C9: iterating a Quantity yields exactly one single-element Quantity per
entry of the value array, in index order, each carrying the unit and the
name of the parent; the sequence is a pure function of the Quantity, so a
second iteration yields the same sequence. -/
theorem C9_iteration (q : Quantity) (h : q.unit ≠ SUnit.sym []) :
    (qiter q).length = q.value.length ∧
    (qiter q).map Quantity.value = q.value.map (fun x => [x]) ∧
    (qiter q).map Quantity.unit = q.value.map (fun _ => q.unit) ∧
    (qiter q).map Quantity.name = q.value.map (fun _ => q.name) := by
  refine ⟨?_, ?_, ?_, ?_⟩
  · simp [qiter]
  · simp only [qiter, List.map_map]
    rfl
  · simp only [qiter, List.map_map]
    refine List.map_congr_left ?_
    intro x hx
    exact create_unit_of_ne_one q [x] q.unit q.name none h
  · simp only [qiter, List.map_map]
    rfl

/-- C9 (witness): iteration over a two-element meter Quantity. -/
theorem C9_iteration_witness :
    (qiter qMV).length = qMV.value.length ∧
    (qiter qMV).map Quantity.unit = qMV.value.map (fun _ => qMV.unit) :=
  ⟨(C9_iteration qMV (by decide)).1, (C9_iteration qMV (by decide)).2.2.1⟩

/-- C10: reflected floor division omits the None-to-Zero normalization: for
a unit-less Quantity and a plain number the resolved unit is None on both
sides, __rfloordiv__ stores unit None and dimension None, while
__floordiv__ (and a reflected operator that does normalize, such as
__rsub__) stores the Zero sentinel. -/
theorem C10_rfloordiv_unit :
    (compute_operation qDimless (Operand.raw [2]) ArithOp.floordiv true).unit =
      SUnit.pnone ∧
    (qrfloordiv qDimless (Operand.raw [2])).unit = SUnit.pnone ∧
    (qrfloordiv qDimless (Operand.raw [2])).dimension = Dim.dnone ∧
    (compute_operation qDimless (Operand.raw [2]) ArithOp.floordiv false).unit =
      SUnit.pnone ∧
    (qfloordiv qDimless (Operand.raw [2])).unit = SUnit.zero ∧
    (qrsub qDimless (Operand.raw [2])).unit = SUnit.zero := by decide

end Respy
